import Mathlib

/-!
Verification of the multi-agent orchestration and caching subsystem of the
asd_support application (services: cache_manager.py, scenario_generator.py,
agent_coordinator.py, specialized_agent_service.py).

The Python code is shallowly embedded:
* parsed JSON values (Python dicts/lists/strings/numbers as produced by
  json.load / json.loads) are modelled by the inductive type Json below;
  JSON numbers are modelled as integers (the code only ever produces and
  compares integral scores and indices);
* Python dicts are modelled as association lists that preserve insertion
  order (update-in-place keeps the key position, fresh keys append), which
  is exactly the semantics of Python 3.7+ dicts;
* wall-clock time (datetime.now()) is an explicit natural-number parameter;
  ISO-8601 timestamp strings compare lexicographically in the same order as
  the instants they denote, so ordering timestamps as naturals is faithful;
* calls to the external LLM Gateway (an openai client) are modelled as
  oracle functions carried in an environment record; the combined step
  "call the chat-completion endpoint, then json.loads the returned text"
  is one oracle returning either an exception (Except.error, covering both
  a raised API error and a JSON parse failure) or the parsed Json value;
* raised-and-caught Python exceptions are threaded explicitly through
  Except / Option values; a function that cannot let an exception escape is
  embedded as a total function.
-/

namespace AsdSupport

/-- A parsed JSON value (the result of Python json.load / json.loads).
Numbers are modelled as integers; objects keep field insertion order. -/
inductive Json where
  | null : Json
  | bool (b : Bool) : Json
  | num (n : Int) : Json
  | str (s : String) : Json
  | arr (elems : List Json) : Json
  | obj (fields : List (String × Json)) : Json

mutual

/-- Decidable equality of JSON values (the deriving handler does not
support this nested inductive, so it is spelled out). -/
def Json.decEq : (a b : Json) → Decidable (a = b)
  | .null, .null => isTrue rfl
  | .bool x, .bool y =>
      match Bool.decEq x y with
      | isTrue h => isTrue (by rw [h])
      | isFalse h => isFalse (fun he => h (by cases he; rfl))
  | .num x, .num y =>
      match Int.decEq x y with
      | isTrue h => isTrue (by rw [h])
      | isFalse h => isFalse (fun he => h (by cases he; rfl))
  | .str x, .str y =>
      match String.decEq x y with
      | isTrue h => isTrue (by rw [h])
      | isFalse h => isFalse (fun he => h (by cases he; rfl))
  | .arr xs, .arr ys =>
      match Json.decEqList xs ys with
      | isTrue h => isTrue (by rw [h])
      | isFalse h => isFalse (fun he => h (by cases he; rfl))
  | .obj xs, .obj ys =>
      match Json.decEqFields xs ys with
      | isTrue h => isTrue (by rw [h])
      | isFalse h => isFalse (fun he => h (by cases he; rfl))
  | .null, .bool _ => isFalse (fun h => Json.noConfusion h)
  | .null, .num _ => isFalse (fun h => Json.noConfusion h)
  | .null, .str _ => isFalse (fun h => Json.noConfusion h)
  | .null, .arr _ => isFalse (fun h => Json.noConfusion h)
  | .null, .obj _ => isFalse (fun h => Json.noConfusion h)
  | .bool _, .null => isFalse (fun h => Json.noConfusion h)
  | .bool _, .num _ => isFalse (fun h => Json.noConfusion h)
  | .bool _, .str _ => isFalse (fun h => Json.noConfusion h)
  | .bool _, .arr _ => isFalse (fun h => Json.noConfusion h)
  | .bool _, .obj _ => isFalse (fun h => Json.noConfusion h)
  | .num _, .null => isFalse (fun h => Json.noConfusion h)
  | .num _, .bool _ => isFalse (fun h => Json.noConfusion h)
  | .num _, .str _ => isFalse (fun h => Json.noConfusion h)
  | .num _, .arr _ => isFalse (fun h => Json.noConfusion h)
  | .num _, .obj _ => isFalse (fun h => Json.noConfusion h)
  | .str _, .null => isFalse (fun h => Json.noConfusion h)
  | .str _, .bool _ => isFalse (fun h => Json.noConfusion h)
  | .str _, .num _ => isFalse (fun h => Json.noConfusion h)
  | .str _, .arr _ => isFalse (fun h => Json.noConfusion h)
  | .str _, .obj _ => isFalse (fun h => Json.noConfusion h)
  | .arr _, .null => isFalse (fun h => Json.noConfusion h)
  | .arr _, .bool _ => isFalse (fun h => Json.noConfusion h)
  | .arr _, .num _ => isFalse (fun h => Json.noConfusion h)
  | .arr _, .str _ => isFalse (fun h => Json.noConfusion h)
  | .arr _, .obj _ => isFalse (fun h => Json.noConfusion h)
  | .obj _, .null => isFalse (fun h => Json.noConfusion h)
  | .obj _, .bool _ => isFalse (fun h => Json.noConfusion h)
  | .obj _, .num _ => isFalse (fun h => Json.noConfusion h)
  | .obj _, .str _ => isFalse (fun h => Json.noConfusion h)
  | .obj _, .arr _ => isFalse (fun h => Json.noConfusion h)

/-- Decidable equality of JSON arrays, mutual with Json.decEq. -/
def Json.decEqList : (xs ys : List Json) → Decidable (xs = ys)
  | [], [] => isTrue rfl
  | [], _ :: _ => isFalse (by simp)
  | _ :: _, [] => isFalse (by simp)
  | x :: xs, y :: ys =>
      match Json.decEq x y with
      | isFalse h1 => isFalse (fun he => h1 (by cases he; rfl))
      | isTrue h1 =>
          match Json.decEqList xs ys with
          | isTrue h2 => isTrue (by rw [h1, h2])
          | isFalse h2 => isFalse (fun he => h2 (by cases he; rfl))

/-- Decidable equality of JSON object field lists, mutual with
Json.decEq. -/
def Json.decEqFields :
    (xs ys : List (String × Json)) → Decidable (xs = ys)
  | [], [] => isTrue rfl
  | [], _ :: _ => isFalse (by simp)
  | _ :: _, [] => isFalse (by simp)
  | (k, x) :: xs, (k', y) :: ys =>
      match String.decEq k k' with
      | isFalse h0 => isFalse (fun he => h0 (by cases he; rfl))
      | isTrue h0 =>
          match Json.decEq x y with
          | isFalse h1 => isFalse (fun he => h1 (by cases he; rfl))
          | isTrue h1 =>
              match Json.decEqFields xs ys with
              | isTrue h2 => isTrue (by rw [h0, h1, h2])
              | isFalse h2 => isFalse (fun he => h2 (by cases he; rfl))

end

instance : DecidableEq Json := Json.decEq

/-- Python truthiness of a parsed JSON value (used by the many
"if value:" tests in the code): None, False, 0, "", [], {} are falsy. -/
def Json.truthy : Json → Bool
  | .null => false
  | .bool b => b
  | .num n => n != 0
  | .str s => s != ""
  | .arr elems => !elems.isEmpty
  | .obj fields => !fields.isEmpty

/-- Dictionary read, ordered-association-list form: first binding wins
(Python dicts never hold duplicate keys, so this is exact). -/
def alistGet {α : Type} (l : List (String × α)) (k : String) : Option α :=
  match l with
  | [] => none
  | (k', v) :: rest => if k' = k then some v else alistGet rest k

/-- Python dict assignment d[k] = v: replaces in place if the key exists
(keeping its position), otherwise appends at the end. -/
def alistSet {α : Type} (l : List (String × α)) (k : String) (v : α) :
    List (String × α) :=
  match l with
  | [] => [(k, v)]
  | (k', v') :: rest =>
      if k' = k then (k', v) :: rest else (k', v') :: alistSet rest k v

/-- Python del d[k]. -/
def alistErase {α : Type} (l : List (String × α)) (k : String) :
    List (String × α) :=
  match l with
  | [] => []
  | (k', v') :: rest =>
      if k' = k then rest else (k', v') :: alistErase rest k

/-- Python dict .get(k, default) on a JSON object; on a non-object this
access raises in Python - callers below handle that case explicitly. -/
def Json.objGet? : Json → String → Option Json
  | .obj fields, k => alistGet fields k
  | _, _ => none

/-- d.get(k, default) with the default filled in. -/
def Json.objGetD (j : Json) (k : String) (d : Json) : Json :=
  (j.objGet? k).getD d

/-- Python dict assignment on a JSON object (d[k] = v). Only called on
objects; on a non-object Python raises, handled at each call site. -/
def Json.objSet : Json → String → Json → Json
  | .obj fields, k, v => .obj (alistSet fields k v)
  | j, _, _ => j

/-!
## Settings (app/config/settings.py)

Only the fields the embedded services read. Values come from environment
variables at process start; they are parameters here.
-/

structure Settings where
  ENABLE_SCENARIO_CACHE : Bool
  CACHE_EXPIRY_HOURS : Nat
  MAX_CACHE_SIZE : Nat
  AI_QUALITY_THRESHOLD : Int
deriving DecidableEq

/-!
## CacheManager (app/services/cache_manager.py)

The two storage tiers: the in-process mapping self._memory_cache, and the
two on-disk JSON files scenario_cache.json / situation_cache.json. The
disk files are read wholesale by _load_cache_file and rewritten wholesale
by _save_cache_file on every access, so their current JSON contents are
modelled directly as association lists inside the state.
-/

/-- One cache entry: the {"content": ..., "timestamp": ..., "expiry": ...}
record built by save_scenario_cache / save_situation_cache. -/
structure CachedData where
  content : Json
  timestamp : Nat
  expiry : Nat
deriving DecidableEq

/-- The mutable state of a CacheManager: memory tier plus the contents of
the two disk-tier JSON files. -/
structure CMState where
  memory : List (String × CachedData)
  scenarioDisk : List (String × CachedData)
  situationDisk : List (String × CachedData)
deriving DecidableEq

/-- CacheManager._is_cache_valid: the entry is valid while
datetime.now() < expiry. (The "expiry missing or unparseable" branch
returns False; structured entries always carry an expiry.) -/
def is_cache_valid (now : Nat) (cd : CachedData) : Bool :=
  now < cd.expiry

/-- The composite scenario cache key f"{event_name}_{scene_number}". -/
def cacheKey (eventName : String) (sceneNumber : Nat) : String :=
  eventName ++ "_" ++ toString sceneNumber

/-- The composite situation cache key f"{event_name}_{situation_id}". -/
def situationKey (eventName situationId : String) : String :=
  eventName ++ "_" ++ situationId

/-- One step of the insertion sort underlying _evict_old_entries: place an
entry into a list already sorted by descending timestamp, before the first
entry whose timestamp is ≤ its own (so among equal timestamps the earlier
original element stays first - the stability Python's sorted guarantees). -/
def insertDescTs (a : String × CachedData) :
    List (String × CachedData) → List (String × CachedData)
  | [] => [a]
  | b :: bs =>
      if b.2.timestamp ≤ a.2.timestamp then a :: b :: bs
      else b :: insertDescTs a bs

/-- Stable sort by descending timestamp: the semantics of
sorted(cache_data.items(), key=lambda x: x[1].get("timestamp", ""),
reverse=True). Any stable sort computes the same list, so this insertion
sort is observationally identical to Python's Timsort here. -/
def sortDescTs : List (String × CachedData) → List (String × CachedData)
  | [] => []
  | x :: xs => insertDescTs x (sortDescTs xs)

/-- CacheManager._evict_old_entries: keep only the MAX_CACHE_SIZE
most-recent entries (dict(sorted_entries[:Settings.MAX_CACHE_SIZE])). -/
def evict_old_entries (maxSize : Nat) (cache : List (String × CachedData)) :
    List (String × CachedData) :=
  (sortDescTs cache).take maxSize

/-- The disk-tier effect shared verbatim by save_scenario_cache and
save_situation_cache: write the new entry into the loaded file mapping,
then evict if the size bound is exceeded. -/
def diskInsertStep (maxSize expiryHours now : Nat) (key : String)
    (content : Json) (disk : List (String × CachedData)) :
    List (String × CachedData) :=
  let disk1 := alistSet disk key ⟨content, now, now + expiryHours⟩
  if maxSize < disk1.length then evict_old_entries maxSize disk1 else disk1

/-- CacheManager.get_cached_scenario. Returns the looked-up content (None
on a miss) together with the state after the lookup's side effects: a
disk-tier hit is copied into the memory tier, an expired disk-tier entry
is deleted and the file rewritten. An expired memory-tier entry merely
falls through to the file check. -/
def get_cached_scenario (s : Settings) (now : Nat) (eventName : String)
    (sceneNumber : Nat) (st : CMState) : Option Json × CMState :=
  if !s.ENABLE_SCENARIO_CACHE then (none, st) else
  let key := cacheKey eventName sceneNumber
  let fileStep : Option Json × CMState :=
    match alistGet st.scenarioDisk key with
    | some cd =>
        if is_cache_valid now cd then
          (some cd.content, { st with memory := alistSet st.memory key cd })
        else
          (none, { st with scenarioDisk := alistErase st.scenarioDisk key })
    | none => (none, st)
  match alistGet st.memory key with
  | some cd => if is_cache_valid now cd then (some cd.content, st) else fileStep
  | none => fileStep

/-- CacheManager.save_scenario_cache: writes the timestamped entry to the
memory tier and to the scenario disk file, evicting past MAX_CACHE_SIZE. -/
def save_scenario_cache (s : Settings) (now : Nat) (eventName : String)
    (sceneNumber : Nat) (content : Json) (st : CMState) : CMState :=
  if !s.ENABLE_SCENARIO_CACHE then st else
  let key := cacheKey eventName sceneNumber
  let cd : CachedData := ⟨content, now, now + s.CACHE_EXPIRY_HOURS⟩
  { st with
    memory := alistSet st.memory key cd
    scenarioDisk :=
      diskInsertStep s.MAX_CACHE_SIZE s.CACHE_EXPIRY_HOURS now key content
        st.scenarioDisk }

/-- CacheManager.get_cached_situation (same shape as the scenario getter,
over the situation disk file and string situation ids). -/
def get_cached_situation (s : Settings) (now : Nat) (eventName : String)
    (situationId : String) (st : CMState) : Option Json × CMState :=
  if !s.ENABLE_SCENARIO_CACHE then (none, st) else
  let key := situationKey eventName situationId
  let fileStep : Option Json × CMState :=
    match alistGet st.situationDisk key with
    | some cd =>
        if is_cache_valid now cd then
          (some cd.content, { st with memory := alistSet st.memory key cd })
        else
          (none, { st with situationDisk := alistErase st.situationDisk key })
    | none => (none, st)
  match alistGet st.memory key with
  | some cd => if is_cache_valid now cd then (some cd.content, st) else fileStep
  | none => fileStep

/-- CacheManager.save_situation_cache. -/
def save_situation_cache (s : Settings) (now : Nat) (eventName : String)
    (situationId : String) (content : Json) (st : CMState) : CMState :=
  if !s.ENABLE_SCENARIO_CACHE then st else
  let key := situationKey eventName situationId
  let cd : CachedData := ⟨content, now, now + s.CACHE_EXPIRY_HOURS⟩
  { st with
    memory := alistSet st.memory key cd
    situationDisk :=
      diskInsertStep s.MAX_CACHE_SIZE s.CACHE_EXPIRY_HOURS now key content
        st.situationDisk }

/-!
## AgentCoordinator (app/services/agent_coordinator.py) and
## ScenarioGenerator (app/services/scenario_generator.py)

External effects are collected in an environment record:
* readJson models FileHandler.read_json over the data directory (returns
  the parsed file contents, or None when the file is missing/corrupt);
* genScenarioGw models one generate_scenario_variation round trip: build
  the prompts from the structured arguments, call the chat-completions
  endpoint, json.loads the reply - Except.error covers an API exception
  and a JSON parse failure alike;
* valGw models the same round trip made by validate_content_quality.
Prompt texts only determine what is handed to the external service, so
the oracles are keyed by the structured arguments the prompts embed.
-/

/-- Python str() of a parsed-JSON value, as interpolated into an
f-string. Exact for strings (the only case the artifact schema feeds it);
other cases use a fixed rendering - the result only becomes prompt text
handed to the gateway oracle, and no theorem depends on it. -/
def Json.pyStr : Json → String
  | .str s => s
  | .null => "None"
  | .bool b => if b then "True" else "False"
  | .num n => toString n
  | .arr _ => "[...]"
  | .obj _ => "\x7b...\x7d"

structure Env where
  readJson : String → Option Json
  genScenarioGw : String → Nat → Json → String → Except String Json
  valGw : String → Json → Json → Except String Json

/-- The fail-open verdict AgentCoordinator.validate_content_quality
returns from its except branch. -/
def defaultVerdict : Json :=
  Json.obj [("is_valid", Json.bool true), ("score", Json.num 70),
            ("issues", Json.arr []), ("suggestions", Json.arr [])]

/-- AgentCoordinator.validate_content_quality. On a gateway exception or
a json.loads failure the except branch returns the fail-open default.
When json.loads yields a non-object value, the logging line
validation_result.get('score', 0) raises AttributeError inside the try,
so that case also lands on the default; a parsed object is returned
as-is, whatever its fields. -/
def validate_content_quality (env : Env) (contentType : String)
    (content : Json) (criteria : Json) : Json :=
  match env.valGw contentType content criteria with
  | .error _ => defaultVerdict
  | .ok v =>
      match v with
      | .obj fields => .obj fields
      | _ => defaultVerdict

/-- AgentCoordinator.generate_scenario_variation: one gateway call with
json.loads on the reply; any exception is caught and returns None. -/
def generate_scenario_variation (env : Env) (eventName : String)
    (sceneNumber : Nat) (baseSituation : Json) (learningGoal : String) :
    Option Json :=
  match env.genScenarioGw eventName sceneNumber baseSituation learningGoal with
  | .error _ => none
  | .ok j => some j

/-- The event_file_map dict literal in ScenarioGenerator._load_base_template
(and _get_child_behaviors_from_event): unknown event names map to None. -/
def eventFileMap (eventName : String) : Option String :=
  if eventName = "トイレ" then some "toilet.json"
  else if eventName = "床屋" then some "barber.json"
  else if eventName = "病院" then some "hospital.json"
  else if eventName = "公園" then some "park.json"
  else if eventName = "朝のルーティン" then some "morning_routine.json"
  else none

/-- The scene-search loop of _load_base_template: the first scene whose
"scene_number" equals the requested number is projected onto its
text/image/choices fields; a non-dict list element makes scene.get raise,
which the surrounding try turns into None. -/
def findScene (sceneNumber : Nat) : List Json → Option Json
  | [] => none
  | scene :: rest =>
      match scene with
      | .obj _ =>
          if scene.objGetD "scene_number" Json.null = Json.num sceneNumber then
            some (Json.obj [("text", scene.objGetD "text" (Json.str "")),
                            ("image", scene.objGetD "image" (Json.str "")),
                            ("choices", scene.objGetD "choices" (Json.arr []))])
          else findScene sceneNumber rest
      | _ => none

/-- ScenarioGenerator._load_base_template. Every failure (unknown event
name, unreadable file, falsy file contents, non-dict contents, non-list
"scenes" value, scene not found, exception while scanning) yields None. -/
def load_base_template (env : Env) (eventName : String) (sceneNumber : Nat) :
    Option Json :=
  match eventFileMap eventName with
  | none => none
  | some filename =>
      match env.readJson filename with
      | none => none
      | some eventData =>
          if !eventData.truthy then none
          else
            match eventData with
            | .obj _ =>
                match eventData.objGetD "scenes" (Json.arr []) with
                | .arr scenes => findScene sceneNumber scenes
                | _ => none
            | _ => none

/-- The choice loop of ScenarioGenerator._infer_learning_goal; a non-dict
choice makes choice.get raise AttributeError, which propagates to the
caller's except (no local try here). -/
def infer_learning_goal_loop : List Json → Except String String
  | [] => .ok "適切な社会的行動を学ぶ"
  | choice :: rest =>
      match choice with
      | .obj _ =>
          if choice.objGetD "evaluation" Json.null = Json.str "appropriate" then
            let hint := choice.objGetD "ai_feedback_hint" (Json.str "")
            if hint.truthy then .ok ("「" ++ hint.pyStr ++ "」という行動を学ぶ")
            else infer_learning_goal_loop rest
          else infer_learning_goal_loop rest
      | _ => .error "AttributeError"

/-- ScenarioGenerator._infer_learning_goal. Exceptions (attribute access
on a non-dict template or choice, iterating a non-list truthy "choices"
value) escape to _generate_with_ai's except branch, hence Except. -/
def infer_learning_goal (template : Json) : Except String String :=
  match template with
  | .obj _ =>
      let choices := template.objGetD "choices" (Json.arr [])
      if !choices.truthy then .ok "適切な社会的行動を学ぶ"
      else
        match choices with
        | .arr cs => infer_learning_goal_loop cs
        | _ => .error "TypeError"
  | _ => .error "AttributeError"

/-- ScenarioGenerator._generate_with_ai: infer the learning goal, run the
coordinator's generation, then graft the template's image onto a truthy
generated dict; any exception (or a falsy/non-dict result) yields None. -/
def generate_with_ai (env : Env) (eventName : String) (sceneNumber : Nat)
    (baseTemplate : Json) : Option Json :=
  match infer_learning_goal baseTemplate with
  | .error _ => none
  | .ok learningGoal =>
      match generate_scenario_variation env eventName sceneNumber
          (baseTemplate.objGetD "text" (Json.str "")) learningGoal with
      | none => none
      | some generated =>
          if generated.truthy then
            match generated with
            | .obj fields =>
                some ((Json.obj fields).objSet "image"
                  (baseTemplate.objGetD "image" (Json.str "")))
            | _ => none
          else none

/-- The criteria dict get_scene_with_variation passes to the validator. -/
def scenarioCriteria : Json :=
  Json.obj [("min_score", Json.num 80),
            ("educational_appropriateness", Json.bool true),
            ("language_level", Json.str "elementary_school"),
            ("asd_considerations", Json.bool true)]

/-- ScenarioGenerator.get_scene_with_variation. The returned pair is the
scene (None when even the template is missing) and the CacheManager state
after the call. The quality gate reads is_valid by truthiness and
compares score against Settings.AI_QUALITY_THRESHOLD; a Python bool score
compares as 0/1, while any other non-numeric score raises TypeError, which
the outer except answers by returning a fresh _load_base_template result. -/
def get_scene_with_variation (env : Env) (s : Settings) (now : Nat)
    (eventName : String) (sceneNumber : Nat)
    (useAiGeneration : Bool) (forceNew : Bool) (st : CMState) :
    Option Json × CMState :=
  let rest : CMState → Option Json × CMState := fun st1 =>
    match load_base_template env eventName sceneNumber with
    | none => (none, st1)
    | some baseTemplate =>
        if useAiGeneration then
          match generate_with_ai env eventName sceneNumber baseTemplate with
          | some generatedScene =>
              if generatedScene.truthy then
                let qualityResult :=
                  validate_content_quality env "scenario" generatedScene
                    scenarioCriteria
                if (qualityResult.objGetD "is_valid" (Json.bool false)).truthy then
                  match qualityResult.objGetD "score" (Json.num 0) with
                  | .num score =>
                      if s.AI_QUALITY_THRESHOLD ≤ score then
                        (some generatedScene,
                         save_scenario_cache s now eventName sceneNumber
                           generatedScene st1)
                      else (some baseTemplate, st1)
                  | .bool b =>
                      if s.AI_QUALITY_THRESHOLD ≤ (if b then (1 : Int) else 0) then
                        (some generatedScene,
                         save_scenario_cache s now eventName sceneNumber
                           generatedScene st1)
                      else (some baseTemplate, st1)
                  | _ => (load_base_template env eventName sceneNumber, st1)
                else (some baseTemplate, st1)
              else (some baseTemplate, st1)
          | none => (some baseTemplate, st1)
        else (some baseTemplate, st1)
  match
    (if !forceNew then get_cached_scenario s now eventName sceneNumber st
     else (none, st)) with
  | (some cached, st1) =>
      if cached.truthy then (some cached, st1) else rest st1
  | (none, st1) => rest st1

/-!
## SpecializedAgentService (app/services/specialized_agent_service.py)

The streaming operations are Python generators; each is embedded as a
total function computing the full trace of one run: the yielded events in
order, the telemetry records handed to the debug collector
(add_api_call / add_evaluation, identified by their agent_type /
evaluation_type tags), the number of chat-completions requests issued,
and the exception escaping the generator boundary, if any.

The openai streaming call is modelled by an oracle returning either an
establishment exception or a StreamOutcome: the raw chunks the iterator
delivers, plus an optional exception the iterator raises after the last
delivered chunk (a mid-stream failure). The debug collector singleton is
always present (utils/debug_info.py constructs it at import time), and
token counting only fills numeric record fields that the trace does not
retain, so it needs no oracle.

The per-persona system_prompt texts are not reproduced here: they only
determine prompt text handed to the gateway, so the stream oracles are
keyed by the structured request (agent id, question, context, tone)
instead.
-/

/-- One entry of the AGENTS catalog (system_prompt omitted, see above). -/
structure Agent where
  name : String
  icon : String
  role : String
  expertise : List String
deriving DecidableEq

/-- SpecializedAgentService.AGENTS, in dict insertion order. -/
def AGENTS : List (String × Agent) :=
  [("clinical_psychologist",
    ⟨"臨床心理士", "🧠", "ASD専門の臨床心理士（経験20年）",
     ["応用行動分析(ABA)", "TEACCH", "SST", "感覚統合療法"]⟩),
   ("pediatrician",
    ⟨"小児科医", "⚕️", "発達障害専門の小児科医",
     ["医学的知見", "神経学", "併存症", "発達評価"]⟩),
   ("special_education_teacher",
    ⟨"特別支援教育専門家", "🏫", "特別支援教育歴15年のベテラン教師",
     ["IEP", "合理的配慮", "インクルーシブ教育", "UD"]⟩),
   ("family_support_specialist",
    ⟨"家族支援専門家", "💙", "家族全体を支援する家族療法の専門家",
     ["ペアトレ", "保護者メンタルヘルス", "きょうだい支援", "夫婦連携"]⟩)]

/-- The delta carried by one raw streaming chunk (delta.content may be
absent). -/
structure Delta where
  content : Option String
deriving DecidableEq

/-- One raw chunk of an openai streaming response. -/
structure RawChunk where
  choices : List Delta
  usage : Option (Nat × Nat)
deriving DecidableEq

/-- What consuming one established stream yields: the delivered chunks,
then optionally an exception raised by the iterator mid-stream. -/
structure StreamOutcome where
  chunks : List RawChunk
  failAfter : Option String
deriving DecidableEq

/-- The gateway oracles of the SpecializedAgentService, one per distinct
request shape the service builds. -/
structure SAEnv where
  singleStream : String → String → String → String → Except String StreamOutcome
  seqStream : String → String → String → String → Except String StreamOutcome
  quickStream : String → String → String → Except String StreamOutcome
  synthStream : String → String → String → List (String × String) →
    Except String StreamOutcome
  expertComplete : String → String → String → Except String String
  valGw : String → Json → Json → Except String Json
  DEBUG_MODE : Bool
  DEBUG_LOG_ALWAYS : Bool

/-- The full trace of one generator run. -/
structure StreamRun (E : Type) where
  events : List E
  apiRecords : List String
  evalRecords : List String
  gwCalls : Nat
  escaped : Option String
deriving DecidableEq

/-- Chunk filtering common to the single/quick/comprehensive loops:
"if chunk.choices and len(chunk.choices) > 0: if chunk.choices[0].delta.content:"
- an empty choices list is skipped, as is an absent or empty content. -/
def contentOfChunk (c : RawChunk) : Option String :=
  match c.choices with
  | [] => none
  | d :: _ =>
      match d.content with
      | some s => if s = "" then none else some s
      | none => none

/-- The fixed unknown-persona reply of
generate_single_expert_response_stream. -/
def notFoundMsg : String := "エラー: 指定された専門家が見つかりません。"

/-- The diagnostic chunk yielded by the except branches of the
single/quick/comprehensive stream generators. -/
def diagMsg (e : String) : String :=
  "\n\n[DEBUG] エラーが発生しました: " ++ e ++ "\n詳細はログを確認してください。"

/-- SpecializedAgentService.generate_single_expert_response_stream.
An unknown agent_id yields the fixed message and returns before any call.
Otherwise the stream is established and consumed; the finally block always
emits one APICallRecord and, when the collected text is non-empty, runs
the quality validator (one more gateway call, fail-open, never raising)
and emits one EvaluationRecord; an establishment or mid-stream exception
is answered by the except branch with a single diagnostic chunk. -/
def generate_single_expert_response_stream (env : SAEnv)
    (agentId question context tone : String) : StreamRun String :=
  match alistGet AGENTS agentId with
  | none => ⟨[notFoundMsg], [], [], 0, none⟩
  | some _ =>
      match env.singleStream agentId question context tone with
      | .error e => ⟨[diagMsg e], [], [], 1, none⟩
      | .ok so =>
          let texts := so.chunks.filterMap contentOfChunk
          let fullResponse := String.join texts
          let evalHappens := fullResponse != ""
          let evalRecs :=
            if evalHappens then ["expert_quality_" ++ agentId] else []
          let calls := if evalHappens then 2 else 1
          match so.failAfter with
          | none =>
              ⟨texts, ["expert_stream_" ++ agentId], evalRecs, calls, none⟩
          | some e =>
              ⟨texts ++ [diagMsg e], ["expert_stream_" ++ agentId],
               evalRecs, calls, none⟩

/-- SpecializedAgentService.generate_quick_response_stream: like the
single-expert stream but persona-less and with no quality evaluation in
its finally block. -/
def generate_quick_response_stream (env : SAEnv)
    (question context tone : String) : StreamRun String :=
  match env.quickStream question context tone with
  | .error e => ⟨[diagMsg e], [], [], 1, none⟩
  | .ok so =>
      let texts := so.chunks.filterMap contentOfChunk
      match so.failAfter with
      | none => ⟨texts, ["quick_response"], [], 1, none⟩
      | some e => ⟨texts ++ [diagMsg e], ["quick_response"], [], 1, none⟩

/-- SpecializedAgentService.generate_expert_response (blocking): one
completion call; on success one APICallRecord, and under
DEBUG_MODE/DEBUG_LOG_ALWAYS one validator call (fail-open) plus one
EvaluationRecord; any exception is caught and returns None. The result
components are (returned content, api records, eval records, gateway
calls). -/
def generate_expert_response (env : SAEnv)
    (agentId question context : String) :
    Option String × List String × List String × Nat :=
  match alistGet AGENTS agentId with
  | none => (none, [], [], 0)
  | some _ =>
      match env.expertComplete agentId question context with
      | .error _ => (none, [], [], 1)
      | .ok content =>
          if env.DEBUG_MODE || env.DEBUG_LOG_ALWAYS then
            (some content, ["expert_" ++ agentId],
             ["expert_quality_" ++ agentId], 2)
          else
            (some content, ["expert_" ++ agentId], [], 1)

/-- The blocking per-persona collection phase of
generate_comprehensive_response_stream: individual_responses keeps, in
registry order, each truthy response. -/
def comprehensiveCollect (env : SAEnv) (question context : String) :
    List (String × String) × List String × List String × Nat :=
  AGENTS.foldl
    (fun acc p =>
      let r := generate_expert_response env p.1 question context
      let kept :=
        match r.1 with
        | some content => if content != "" then [(p.1, content)] else []
        | none => []
      (acc.1 ++ kept, acc.2.1 ++ r.2.1, acc.2.2.1 ++ r.2.2.1,
       acc.2.2.2 + r.2.2.2))
    ([], [], [], 0)

/-- SpecializedAgentService.generate_comprehensive_response_stream: four
blocking expert calls (exceptions swallowed per-call), then one streamed
synthesis call with the same consume/finally/except shape as the other
stream generators. -/
def generate_comprehensive_response_stream (env : SAEnv)
    (question context tone : String) : StreamRun String :=
  let collected := comprehensiveCollect env question context
  match env.synthStream question context tone collected.1 with
  | .error e =>
      ⟨[diagMsg e], collected.2.1, collected.2.2.1,
       collected.2.2.2 + 1, none⟩
  | .ok so =>
      let texts := so.chunks.filterMap contentOfChunk
      match so.failAfter with
      | none =>
          ⟨texts, collected.2.1 ++ ["comprehensive_synthesis"],
           collected.2.2.1, collected.2.2.2 + 1, none⟩
      | some e =>
          ⟨texts ++ [diagMsg e],
           collected.2.1 ++ ["comprehensive_synthesis"],
           collected.2.2.1, collected.2.2.2 + 1, none⟩

/-- One event yielded by the sequential-experts generator. -/
structure SeqEvent where
  agent_id : String
  agent_name : String
  agent_icon : String
  chunk : String
deriving DecidableEq

/-- The error dict yielded by the except branch of
generate_sequential_expert_responses_stream. -/
def seqErrorEvent : SeqEvent :=
  ⟨"error", "エラー", "❌", "申し訳ございません。回答の生成に失敗しました。"⟩

/-- Consuming one persona's stream inside the sequential generator. This
loop indexes chunk.choices[0] without the emptiness guard the other
generators have, so a chunk with an empty choices list raises IndexError
mid-loop (second component); otherwise truthy contents are collected in
order. -/
def seqConsume : List RawChunk → List String × Option String
  | [] => ([], none)
  | c :: rest =>
      match c.choices with
      | [] => ([], some "IndexError: list index out of range")
      | d :: _ =>
          let r := seqConsume rest
          match d.content with
          | some s => if s != "" then (s :: r.1, r.2) else r
          | none => r

/-- One persona's turn inside the sequential generator: the start marker
is yielded first, then the persona's stream is established and consumed;
the finally block emits the APICallRecord whenever the stream was
established; the end marker is only reached when nothing raised. The
result components are (events, api records, gateway calls, exception). -/
def sequentialAgentBlock (env : SAEnv) (question context tone : String)
    (agentId : String) (a : Agent) :
    List SeqEvent × List String × Nat × Option String :=
  let startEv : SeqEvent := ⟨agentId, a.name, a.icon, "__START__"⟩
  match env.seqStream agentId question context tone with
  | .error e => ([startEv], [], 1, some e)
  | .ok so =>
      let consumed := seqConsume so.chunks
      let contentEvs := consumed.1.map
        (fun s => (⟨agentId, a.name, a.icon, s⟩ : SeqEvent))
      match consumed.2 with
      | some e => (startEv :: contentEvs, ["sequential_" ++ agentId], 1, some e)
      | none =>
          match so.failAfter with
          | some e =>
              (startEv :: contentEvs, ["sequential_" ++ agentId], 1, some e)
          | none =>
              (startEv :: (contentEvs ++
                 [⟨agentId, a.name, a.icon, "__END__"⟩]),
               ["sequential_" ++ agentId], 1, none)

/-- The persona loop of the sequential generator: an exception in one
block aborts the loop (it propagates to the outer except). -/
def seqLoop (env : SAEnv) (question context tone : String) :
    List (String × Agent) → List SeqEvent × List String × Nat × Option String
  | [] => ([], [], 0, none)
  | (agentId, a) :: restAgents =>
      let b := sequentialAgentBlock env question context tone agentId a
      match b.2.2.2 with
      | some e => (b.1, b.2.1, b.2.2.1, some e)
      | none =>
          let r := seqLoop env question context tone restAgents
          (b.1 ++ r.1, b.2.1 ++ r.2.1, b.2.2.1 + r.2.2.1, r.2.2.2)

/-- SpecializedAgentService.generate_sequential_expert_responses_stream:
the persona loop, wrapped in the outer except that turns any escaped
exception into the single error event. -/
def generate_sequential_expert_responses_stream (env : SAEnv)
    (question context tone : String) : StreamRun SeqEvent :=
  let r := seqLoop env question context tone AGENTS
  match r.2.2.2 with
  | some _ => ⟨r.1 ++ [seqErrorEvent], r.2.1, [], r.2.2.1, none⟩
  | none => ⟨r.1, r.2.1, [], r.2.2.1, none⟩

/-!
## Specification-side descriptions used by the claims

expectedDisk states what the eviction policy is supposed to leave behind:
all entries while within the bound, otherwise the most recent maxSize
entries (in the descending-timestamp order eviction rebuilds the file in).
-/

/-- The disk mapping predicted for a sequence of fresh, time-ordered
inserts: everything (in insertion order) while within the bound, else the
last maxSize entries in descending-timestamp order. -/
def expectedDisk (maxSize : Nat) (es : List (String × CachedData)) :
    List (String × CachedData) :=
  if es.length ≤ maxSize then es else (es.drop (es.length - maxSize)).reverse

/-- The cache entry save_scenario_cache / save_situation_cache builds for
an insert of content c at time t under key k, for item (t, k, c). -/
def mkEntry (expiryHours : Nat) (i : Nat × String × Json) :
    String × CachedData :=
  (i.2.1, ⟨i.2.2, i.1, i.1 + expiryHours⟩)

/-- Folding diskInsertStep over a list of (time, key, content) items. -/
def diskInsertFold (maxSize expiryHours : Nat) :
    List (Nat × String × Json) → List (String × CachedData) →
    List (String × CachedData)
  | [], d => d
  | i :: rest, d =>
      diskInsertFold maxSize expiryHours rest
        (diskInsertStep maxSize expiryHours i.1 i.2.1 i.2.2 d)

/-- A sequence of save_scenario_cache calls, one per
(time, event, scene, content) item. -/
def save_scenario_seq (s : Settings) :
    List (Nat × String × Nat × Json) → CMState → CMState
  | [], st => st
  | (t, ev, sc, content) :: rest, st =>
      save_scenario_seq s rest (save_scenario_cache s t ev sc content st)

/-!
## Concrete instances used by witnesses and counterexamples
-/

/-- toilet.json contents with a single scene 0, used by witness runs. -/
def toiletEventData : Json :=
  Json.obj [("scenes", Json.arr
    [Json.obj [("scene_number", Json.num 0), ("text", Json.str "基本"),
               ("image", Json.str ""), ("choices", Json.arr [])]])]

/-- The base template _load_base_template projects out of
toiletEventData. -/
def toiletTemplate : Json :=
  Json.obj [("text", Json.str "基本"), ("image", Json.str ""),
            ("choices", Json.arr [])]

/-- An environment whose gateway raises on every call but whose data
directory holds toilet.json. -/
def envGatewayDown : Env :=
  ⟨fun filename => if filename = "toilet.json" then some toiletEventData
    else none,
   fun _ _ _ _ => .error "APIConnectionError",
   fun _ _ _ => .error "APIConnectionError"⟩

/-- An environment whose validator gateway answers with well-formed JSON
that does not have the QualityVerdict shape. -/
def envBadVerdictShape : Env :=
  ⟨fun _ => none,
   fun _ _ _ _ => .error "unused",
   fun _ _ _ => .ok (Json.obj [("foo", Json.num 1)])⟩

/-- A cache state holding a still-valid cached scenario for トイレ scene 0
in the memory tier. -/
def stValidCached : CMState :=
  ⟨[("トイレ_0", ⟨Json.str "キャッシュ済み", 0, 100⟩)], [], []⟩

/-- An SAEnv all of whose stream oracles fail to establish. -/
def saEnvDown : SAEnv :=
  ⟨fun _ _ _ _ => .error "boom", fun _ _ _ _ => .error "boom",
   fun _ _ _ => .error "boom", fun _ _ _ _ => .error "boom",
   fun _ _ _ => .error "boom", fun _ _ _ => .error "boom", true, true⟩

/-- A one-chunk happy-path stream outcome. -/
def okOutcome : StreamOutcome :=
  ⟨[⟨[⟨some "回答です"⟩], some (10, 5)⟩], none⟩

/-- An SAEnv all of whose stream oracles deliver okOutcome. -/
def saEnvOk : SAEnv :=
  ⟨fun _ _ _ _ => .ok okOutcome, fun _ _ _ _ => .ok okOutcome,
   fun _ _ _ => .ok okOutcome, fun _ _ _ _ => .ok okOutcome,
   fun _ _ _ => .ok "回答です", fun _ _ _ => .error "boom", true, true⟩

/-!
## Helper lemmas
-/

theorem alistSet_fresh {α : Type} (l : List (String × α)) (k : String)
    (v : α) (h : ∀ p ∈ l, p.1 ≠ k) : alistSet l k v = l ++ [(k, v)] := by
  induction l with
  | nil => rfl
  | cons p rest ih =>
      obtain ⟨k', v'⟩ := p
      have hp : k' ≠ k := h (k', v') (by simp)
      simp only [alistSet, if_neg hp, List.cons_append, List.cons.injEq,
        true_and]
      exact ih (fun q hq => h q (by simp [hq]))

theorem insertDescTs_length (a : String × CachedData)
    (l : List (String × CachedData)) :
    (insertDescTs a l).length = l.length + 1 := by
  induction l with
  | nil => rfl
  | cons b bs ih =>
      by_cases hb : b.2.timestamp ≤ a.2.timestamp
      · simp [insertDescTs, hb]
      · simp [insertDescTs, hb, ih]

theorem sortDescTs_length (l : List (String × CachedData)) :
    (sortDescTs l).length = l.length := by
  induction l with
  | nil => rfl
  | cons a l ih => simp [sortDescTs, insertDescTs_length, ih]

theorem insertDescTs_of_lt (a : String × CachedData)
    (l : List (String × CachedData))
    (h : ∀ b ∈ l, a.2.timestamp < b.2.timestamp) :
    insertDescTs a l = l ++ [a] := by
  induction l with
  | nil => rfl
  | cons b bs ih =>
      have hb : ¬ (b.2.timestamp ≤ a.2.timestamp) := by
        have := h b (by simp); omega
      simp only [insertDescTs, if_neg hb, List.cons_append,
        List.cons.injEq, true_and]
      exact ih (fun x hx => h x (by simp [hx]))

theorem sortDescTs_of_ascending (l : List (String × CachedData))
    (h : l.Pairwise (fun p q => p.2.timestamp < q.2.timestamp)) :
    sortDescTs l = l.reverse := by
  induction l with
  | nil => rfl
  | cons a l ih =>
      have : sortDescTs (a :: l) = insertDescTs a (sortDescTs l) := rfl
      rw [this, ih h.of_cons,
        insertDescTs_of_lt a l.reverse
          (fun b hb => List.rel_of_pairwise_cons h (List.mem_reverse.mp hb))]
      simp

theorem sortDescTs_append_max (m : List (String × CachedData))
    (e : String × CachedData)
    (hdesc : m.Pairwise (fun p q => q.2.timestamp < p.2.timestamp))
    (hmax : ∀ b ∈ m, b.2.timestamp < e.2.timestamp) :
    sortDescTs (m ++ [e]) = e :: m := by
  induction m with
  | nil => rfl
  | cons b m ih =>
      have hb : ¬ (e.2.timestamp ≤ b.2.timestamp) := by
        have := hmax b (by simp); omega
      have hrest : sortDescTs ((b :: m) ++ [e]) =
          insertDescTs b (sortDescTs (m ++ [e])) := rfl
      rw [hrest, ih hdesc.of_cons (fun x hx => hmax x (by simp [hx]))]
      show insertDescTs b (e :: m) = e :: b :: m
      simp only [insertDescTs, if_neg hb, List.cons.injEq, true_and]
      cases m with
      | nil => rfl
      | cons c ms =>
          have hc : c.2.timestamp ≤ b.2.timestamp :=
            le_of_lt (List.rel_of_pairwise_cons hdesc (by simp))
          simp [insertDescTs, hc]

theorem diskInsertStep_length_le (M eh now : Nat) (k : String) (c : Json)
    (disk : List (String × CachedData)) :
    (diskInsertStep M eh now k c disk).length ≤ M := by
  unfold diskInsertStep evict_old_entries
  by_cases h : M < (alistSet disk k ⟨c, now, now + eh⟩).length
  · simp only [if_pos h, List.length_take, sortDescTs_length]
    omega
  · simp only [if_neg h]
    omega

/-- The central eviction step: inserting a fresh key with a timestamp
newer than everything already inserted moves the predicted disk mapping
from one prefix of the insertion sequence to the next. -/
theorem diskInsertStep_expected (M eh now : Nat) (k : String) (c : Json)
    (es : List (String × CachedData))
    (hasc : es.Pairwise (fun p q => p.2.timestamp < q.2.timestamp))
    (hts : ∀ p ∈ es, p.2.timestamp < now)
    (hk : ∀ p ∈ es, p.1 ≠ k) :
    diskInsertStep M eh now k c (expectedDisk M es) =
      expectedDisk M (es ++ [(k, ⟨c, now, now + eh⟩)]) := by
  rcases Nat.lt_or_ge es.length M with h1 | h1
  · -- still within the bound after the insert
    have hexp : expectedDisk M es = es := by
      simp [expectedDisk, Nat.le_of_lt h1]
    rw [hexp]
    unfold diskInsertStep
    rw [alistSet_fresh es k _ hk]
    rw [if_neg (by simp only [List.length_append, List.length_singleton]; omega)]
    simp only [expectedDisk, List.length_append, List.length_singleton]
    rw [if_pos (by omega)]
  · rcases Nat.eq_or_lt_of_le h1 with h2 | h2
    · -- exactly at the bound: first eviction
      have hexp : expectedDisk M es = es := by
        simp [expectedDisk, h2.ge]
      rw [hexp]
      unfold diskInsertStep
      rw [alistSet_fresh es k _ hk]
      rw [if_pos (by simp only [List.length_append, List.length_singleton]; omega)]
      unfold evict_old_entries
      have hasc' : (es ++ [(k, (⟨c, now, now + eh⟩ : CachedData))]).Pairwise
          (fun p q => p.2.timestamp < q.2.timestamp) := by
        rw [List.pairwise_append]
        refine ⟨hasc, List.pairwise_singleton _ _, ?_⟩
        intro a ha b hb
        rw [List.mem_singleton] at hb
        subst hb
        exact hts a ha
      rw [sortDescTs_of_ascending _ hasc', List.take_reverse]
      simp only [expectedDisk, List.length_append, List.length_singleton]
      rw [if_neg (by omega)]
    · -- strictly past the bound: steady state
      have hexp : expectedDisk M es =
          (es.drop (es.length - M)).reverse := by
        simp [expectedDisk, show ¬ (es.length ≤ M) by omega]
      have hmlen : ((es.drop (es.length - M)).reverse).length = M := by
        simp only [List.length_reverse, List.length_drop]
        omega
      have hmem : ∀ p ∈ (es.drop (es.length - M)).reverse, p ∈ es :=
        fun p hp => List.mem_of_mem_drop (List.mem_reverse.mp hp)
      have hmdesc : ((es.drop (es.length - M)).reverse).Pairwise
          (fun p q => q.2.timestamp < p.2.timestamp) := by
        rw [List.pairwise_reverse]
        exact hasc.sublist (List.drop_sublist _ _)
      rw [hexp]
      unfold diskInsertStep
      rw [alistSet_fresh _ k _ (fun p hp => hk p (hmem p hp))]
      rw [if_pos (by
        simp only [List.length_append, List.length_singleton, hmlen]; omega)]
      unfold evict_old_entries
      rw [sortDescTs_append_max _ (k, ⟨c, now, now + eh⟩) hmdesc
        (fun b hb => hts b (hmem b hb))]
      have hstep : ((k, (⟨c, now, now + eh⟩ : CachedData)) ::
          (es.drop (es.length - M)).reverse) =
          ((es.drop (es.length - M)) ++
            [(k, (⟨c, now, now + eh⟩ : CachedData))]).reverse := by
        simp
      rw [hstep, List.take_reverse]
      have hdlen : ((es.drop (es.length - M)) ++
          [(k, (⟨c, now, now + eh⟩ : CachedData))]).length = M + 1 := by
        simp only [List.length_append, List.length_drop, List.length_singleton]
        omega
      rw [hdlen]
      have hlen' : (es.drop (es.length - M)).length = M := by
        simp only [List.length_drop]; omega
      rw [List.drop_append_eq_append_drop, List.drop_drop, hlen']
      have hr : expectedDisk M
          (es ++ [(k, (⟨c, now, now + eh⟩ : CachedData))]) =
          ((es ++ [(k, (⟨c, now, now + eh⟩ : CachedData))]).drop
            (es.length + 1 - M)).reverse := by
        simp only [expectedDisk, List.length_append, List.length_singleton]
        rw [if_neg (by omega)]
      rw [hr, List.drop_append_eq_append_drop]
      have e1 : es.length - M + (M + 1 - M) = es.length + 1 - M := by omega
      have e2 : M + 1 - M - M = es.length + 1 - M - es.length := by omega
      rw [e1, e2]

theorem diskInsertFold_append (M eh : Nat)
    (xs ys : List (Nat × String × Json)) (d : List (String × CachedData)) :
    diskInsertFold M eh (xs ++ ys) d =
      diskInsertFold M eh ys (diskInsertFold M eh xs d) := by
  induction xs generalizing d with
  | nil => rfl
  | cons x xs ih =>
      simp only [List.cons_append, diskInsertFold]
      exact ih _

/-- Folding the disk-insert step of the save functions over fresh,
time-ordered items starting from an empty file yields exactly the
predicted mapping. -/
theorem diskInsertFold_expected (M eh : Nat)
    (items : List (Nat × String × Json))
    (hasc : items.Pairwise (fun i j => i.1 < j.1))
    (hkeys : items.Pairwise (fun i j => i.2.1 ≠ j.2.1)) :
    diskInsertFold M eh items [] =
      expectedDisk M (items.map (mkEntry eh)) := by
  induction items using List.reverseRecOn with
  | nil => simp [diskInsertFold, expectedDisk]
  | append_singleton xs x ih =>
      have happ := List.pairwise_append.mp hasc
      have happk := List.pairwise_append.mp hkeys
      rw [diskInsertFold_append]
      have hstep1 : diskInsertFold M eh [x] (diskInsertFold M eh xs []) =
          diskInsertStep M eh x.1 x.2.1 x.2.2
            (diskInsertFold M eh xs []) := rfl
      rw [hstep1, ih happ.1 happk.1]
      have hasc' : (xs.map (mkEntry eh)).Pairwise
          (fun p q => p.2.timestamp < q.2.timestamp) := by
        rw [List.pairwise_map]
        exact happ.1
      have hts' : ∀ p ∈ xs.map (mkEntry eh), p.2.timestamp < x.1 := by
        intro p hp
        obtain ⟨i, hi, rfl⟩ := List.mem_map.mp hp
        exact happ.2.2 i hi x (by simp)
      have hk' : ∀ p ∈ xs.map (mkEntry eh), p.1 ≠ x.2.1 := by
        intro p hp
        obtain ⟨i, hi, rfl⟩ := List.mem_map.mp hp
        exact happk.2.2 i hi x (by simp)
      rw [diskInsertStep_expected M eh x.1 x.2.1 x.2.2 _ hasc' hts' hk']
      simp [mkEntry]

/-- With caching enabled, a sequence of save_scenario_cache calls acts on
the scenario disk file exactly as the disk-insert fold. -/
theorem save_scenario_seq_disk (eh M : Nat) (thr : Int)
    (items : List (Nat × String × Nat × Json)) (st : CMState) :
    (save_scenario_seq ⟨true, eh, M, thr⟩ items st).scenarioDisk =
      diskInsertFold M eh
        (items.map (fun i => (i.1, cacheKey i.2.1 i.2.2.1, i.2.2.2)))
        st.scenarioDisk := by
  induction items generalizing st with
  | nil => rfl
  | cons i rest ih =>
      obtain ⟨t, ev, sc, content⟩ := i
      simp only [save_scenario_seq, List.map_cons, diskInsertFold]
      rw [ih]
      rfl

/-!
## Claim theorems
-/

/-- C3: inserting max_size + k (k ≥ 1) fresh, time-ordered entries through
save_scenario_cache starting from an empty disk file leaves exactly
max_size entries - the max_size most-recently-created ones (the oldest k
are evicted; the surviving file lists them newest-first) - and no save
(scenario or situation) ever completes with its disk file above
max_size. -/
theorem c3_eviction_bound (eh : Nat) (thr : Int) (M k : Nat)
    (items : List (Nat × String × Nat × Json)) (st0 : CMState)
    (hk : 1 ≤ k) (hlen : items.length = M + k)
    (hasc : items.Pairwise (fun i j => i.1 < j.1))
    (hkeys : items.Pairwise
      (fun i j => cacheKey i.2.1 i.2.2.1 ≠ cacheKey j.2.1 j.2.2.1))
    (hdisk : st0.scenarioDisk = []) :
    (save_scenario_seq ⟨true, eh, M, thr⟩ items st0).scenarioDisk =
      ((items.map (fun i => (cacheKey i.2.1 i.2.2.1,
          (⟨i.2.2.2, i.1, i.1 + eh⟩ : CachedData)))).drop k).reverse ∧
    (save_scenario_seq ⟨true, eh, M, thr⟩ items st0).scenarioDisk.length
      = M ∧
    (∀ (st : CMState) (t : Nat) (ev : String) (sc : Nat) (c : Json),
      (save_scenario_cache ⟨true, eh, M, thr⟩ t ev sc c st).scenarioDisk.length
        ≤ M) ∧
    (∀ (st : CMState) (t : Nat) (ev sid : String) (c : Json),
      (save_situation_cache ⟨true, eh, M, thr⟩ t ev sid c st).situationDisk.length
        ≤ M) := by
  have hfold := save_scenario_seq_disk eh M thr items st0
  rw [hdisk] at hfold
  have hasc' : (items.map
      (fun i => (i.1, cacheKey i.2.1 i.2.2.1, i.2.2.2))).Pairwise
      (fun i j => i.1 < j.1) := by
    rw [List.pairwise_map]
    exact hasc
  have hkeys' : (items.map
      (fun i => (i.1, cacheKey i.2.1 i.2.2.1, i.2.2.2))).Pairwise
      (fun i j => i.2.1 ≠ j.2.1) := by
    rw [List.pairwise_map]
    exact hkeys
  rw [diskInsertFold_expected M eh _ hasc' hkeys'] at hfold
  have hmap : (items.map
        (fun i => (i.1, cacheKey i.2.1 i.2.2.1, i.2.2.2))).map (mkEntry eh)
      = items.map (fun i => (cacheKey i.2.1 i.2.2.1,
          (⟨i.2.2.2, i.1, i.1 + eh⟩ : CachedData))) := by
    rw [List.map_map]
    rfl
  rw [hmap] at hfold
  have hmaplen : (items.map (fun i => (cacheKey i.2.1 i.2.2.1,
      (⟨i.2.2.2, i.1, i.1 + eh⟩ : CachedData)))).length = M + k := by
    rw [List.length_map, hlen]
  have hexp : expectedDisk M (items.map (fun i => (cacheKey i.2.1 i.2.2.1,
      (⟨i.2.2.2, i.1, i.1 + eh⟩ : CachedData)))) =
      ((items.map (fun i => (cacheKey i.2.1 i.2.2.1,
        (⟨i.2.2.2, i.1, i.1 + eh⟩ : CachedData)))).drop k).reverse := by
    unfold expectedDisk
    rw [hmaplen, if_neg (by omega)]
    congr 2
    omega
  refine ⟨hfold.trans hexp, ?_, ?_, ?_⟩
  · rw [hfold.trans hexp]
    simp only [List.length_reverse, List.length_drop, hmaplen]
    omega
  · intro st t ev sc c
    exact diskInsertStep_length_le M eh t (cacheKey ev sc) c st.scenarioDisk
  · intro st t ev sid c
    exact diskInsertStep_length_le M eh t (situationKey ev sid) c
      st.situationDisk

/-- Witness for C3: max_size 2, three inserts; the oldest is evicted and
the two newest survive, newest first. -/
theorem c3_eviction_bound_witness :
    (save_scenario_seq ⟨true, 5, 2, 80⟩
        [(1, "トイレ", 0, Json.str "a"), (2, "トイレ", 1, Json.str "b"),
         (3, "床屋", 0, Json.str "c")] ⟨[], [], []⟩).scenarioDisk =
      (([(1, "トイレ", 0, Json.str "a"), (2, "トイレ", 1, Json.str "b"),
         (3, "床屋", 0, Json.str "c")].map
           (fun i => (cacheKey i.2.1 i.2.2.1,
             (⟨i.2.2.2, i.1, i.1 + 5⟩ : CachedData)))).drop 1).reverse ∧
    (save_scenario_seq ⟨true, 5, 2, 80⟩
        [(1, "トイレ", 0, Json.str "a"), (2, "トイレ", 1, Json.str "b"),
         (3, "床屋", 0, Json.str "c")] ⟨[], [], []⟩).scenarioDisk.length = 2 ∧
    (∀ (st : CMState) (t : Nat) (ev : String) (sc : Nat) (c : Json),
      (save_scenario_cache ⟨true, 5, 2, 80⟩ t ev sc c st).scenarioDisk.length
        ≤ 2) ∧
    (∀ (st : CMState) (t : Nat) (ev sid : String) (c : Json),
      (save_situation_cache ⟨true, 5, 2, 80⟩ t ev sid c st).situationDisk.length
        ≤ 2) :=
  c3_eviction_bound 5 80 2 1
    [(1, "トイレ", 0, Json.str "a"), (2, "トイレ", 1, Json.str "b"),
     (3, "床屋", 0, Json.str "c")] ⟨[], [], []⟩
    (by decide) (by decide) (by decide) (by decide) rfl

/-- C9: with ENABLE_SCENARIO_CACHE false, every lookup misses regardless
of the stored contents and every save leaves both tiers (and both disk
files) untouched. -/
theorem c9_cache_disabled_noop (eh M : Nat) (thr : Int) (now : Nat)
    (ev : String) (sc : Nat) (sid : String) (content : Json)
    (st : CMState) :
    get_cached_scenario ⟨false, eh, M, thr⟩ now ev sc st = (none, st) ∧
    save_scenario_cache ⟨false, eh, M, thr⟩ now ev sc content st = st ∧
    get_cached_situation ⟨false, eh, M, thr⟩ now ev sid st = (none, st) ∧
    save_situation_cache ⟨false, eh, M, thr⟩ now ev sid content st = st :=
  ⟨rfl, rfl, rfl, rfl⟩

/-- C2: whenever the validator's gateway round trip raises or its reply
fails to parse as JSON (both are the Except.error case of the oracle),
validate_content_quality returns exactly the fail-open verdict
is_valid=true, score=70, issues=[], suggestions=[], and (being total) it
propagates no exception. -/
theorem c2_validator_fail_open (rj : String → Option Json)
    (g : String → Nat → Json → String → Except String Json)
    (msg contentType : String) (content criteria : Json) :
    validate_content_quality ⟨rj, g, fun _ _ _ => .error msg⟩
        contentType content criteria = defaultVerdict :=
  rfl

/-- C6 counterexample: the gateway answers with the well-formed JSON
object containing only key "foo" - a shape deviating from QualityVerdict -
yet validate_content_quality returns that object itself, not the
fail-open default the claim requires. -/
theorem c6_counterexample :
    validate_content_quality envBadVerdictShape "scenario" Json.null
        Json.null = Json.obj [("foo", Json.num 1)] ∧
    Json.obj [("foo", Json.num 1)] ≠ defaultVerdict :=
  ⟨rfl, by decide⟩

/-- C6 amended: validate_content_quality performs no shape validation: a
reply parsing to any JSON object is returned as-is, however it deviates
from the QualityVerdict shape; only a reply parsing to a non-object JSON
value (on which the attribute access in the logging line raises) falls
back to the fail-open default. -/
theorem c6_amended_no_shape_check (rj : String → Option Json)
    (g : String → Nat → Json → String → Except String Json)
    (contentType : String) (content criteria : Json)
    (fields : List (String × Json)) (b : Bool) (n : Int) (s : String)
    (xs : List Json) :
    validate_content_quality ⟨rj, g, fun _ _ _ => .ok (Json.obj fields)⟩
        contentType content criteria = Json.obj fields ∧
    validate_content_quality ⟨rj, g, fun _ _ _ => .ok Json.null⟩
        contentType content criteria = defaultVerdict ∧
    validate_content_quality ⟨rj, g, fun _ _ _ => .ok (Json.bool b)⟩
        contentType content criteria = defaultVerdict ∧
    validate_content_quality ⟨rj, g, fun _ _ _ => .ok (Json.num n)⟩
        contentType content criteria = defaultVerdict ∧
    validate_content_quality ⟨rj, g, fun _ _ _ => .ok (Json.str s)⟩
        contentType content criteria = defaultVerdict ∧
    validate_content_quality ⟨rj, g, fun _ _ _ => .ok (Json.arr xs)⟩
        contentType content criteria = defaultVerdict :=
  ⟨rfl, rfl, rfl, rfl, rfl, rfl⟩

/-- C10: for an agent_id outside the four-persona registry, the single
expert stream yields exactly the fixed not-found chunk and terminates:
no gateway request is issued and no APICallRecord or EvaluationRecord is
emitted. -/
theorem c10_unknown_agent (env : SAEnv) (q c t agentId : String)
    (h : alistGet AGENTS agentId = none) :
    generate_single_expert_response_stream env agentId q c t
      = ⟨[notFoundMsg], [], [], 0, none⟩ := by
  unfold generate_single_expert_response_stream
  rw [h]

/-- Witness for C10 at the concrete unknown id "nutritionist". -/
theorem c10_unknown_agent_witness :
    generate_single_expert_response_stream saEnvDown "nutritionist"
        "質問" "背景" "friendly" = ⟨[notFoundMsg], [], [], 0, none⟩ :=
  c10_unknown_agent saEnvDown "質問" "背景" "friendly" "nutritionist"
    (by decide)

/-- C4 counterexample: an expired entry sitting in the memory tier. The
lookup reports a miss, but the returned state is unchanged - the expired
memory-tier entry is still there, contradicting the claim that the lookup
removes the expired entry from whichever tier it resides in. -/
theorem c4_counterexample :
    get_cached_scenario ⟨true, 24, 100, 80⟩ 10 "トイレ" 0
        ⟨[("トイレ_0", ⟨Json.str "古い", 0, 5⟩)], [], []⟩ =
      (none, ⟨[("トイレ_0", ⟨Json.str "古い", 0, 5⟩)], [], []⟩) ∧
    is_cache_valid 10 ⟨Json.str "古い", 0, 5⟩ = false ∧
    alistGet (get_cached_scenario ⟨true, 24, 100, 80⟩ 10 "トイレ" 0
        ⟨[("トイレ_0", ⟨Json.str "古い", 0, 5⟩)], [], []⟩).2.memory
        (cacheKey "トイレ" 0) = some ⟨Json.str "古い", 0, 5⟩ :=
  ⟨rfl, rfl, rfl⟩

/-- C4 amended: an expired-entry lookup returns a miss; when the expired
entry resides in the disk tier it is deleted there (memory untouched),
but an expired memory-tier entry is merely skipped, not removed (removal
of memory-tier entries only happens in clear_expired_cache). Both the
scenario and the situation getters behave this way. -/
theorem c4_amended_expired_read :
    (∀ (s : Settings) (now : Nat) (ev : String) (sc : Nat) (st : CMState)
        (cd : CachedData),
      s.ENABLE_SCENARIO_CACHE = true →
      (∀ cd', alistGet st.memory (cacheKey ev sc) = some cd' →
        is_cache_valid now cd' = false) →
      alistGet st.scenarioDisk (cacheKey ev sc) = some cd →
      is_cache_valid now cd = false →
      get_cached_scenario s now ev sc st =
        (none, (⟨st.memory,
          alistErase st.scenarioDisk (cacheKey ev sc),
          st.situationDisk⟩ : CMState))) ∧
    (∀ (s : Settings) (now : Nat) (ev : String) (sc : Nat) (st : CMState)
        (cd : CachedData),
      s.ENABLE_SCENARIO_CACHE = true →
      alistGet st.memory (cacheKey ev sc) = some cd →
      is_cache_valid now cd = false →
      alistGet st.scenarioDisk (cacheKey ev sc) = none →
      get_cached_scenario s now ev sc st = (none, st)) ∧
    (∀ (s : Settings) (now : Nat) (ev sid : String) (st : CMState)
        (cd : CachedData),
      s.ENABLE_SCENARIO_CACHE = true →
      (∀ cd', alistGet st.memory (situationKey ev sid) = some cd' →
        is_cache_valid now cd' = false) →
      alistGet st.situationDisk (situationKey ev sid) = some cd →
      is_cache_valid now cd = false →
      get_cached_situation s now ev sid st =
        (none, (⟨st.memory, st.scenarioDisk,
          alistErase st.situationDisk (situationKey ev sid)⟩ : CMState))) ∧
    (∀ (s : Settings) (now : Nat) (ev sid : String) (st : CMState)
        (cd : CachedData),
      s.ENABLE_SCENARIO_CACHE = true →
      alistGet st.memory (situationKey ev sid) = some cd →
      is_cache_valid now cd = false →
      alistGet st.situationDisk (situationKey ev sid) = none →
      get_cached_situation s now ev sid st = (none, st)) := by
  refine ⟨?_, ?_, ?_, ?_⟩
  · intro s now ev sc st cd hen hmem hdisk hexp
    cases hm : alistGet st.memory (cacheKey ev sc) with
    | none => simp [get_cached_scenario, hen, hm, hdisk, hexp]
    | some cd' =>
        have h2 := hmem cd' hm
        simp [get_cached_scenario, hen, hm, h2, hdisk, hexp]
  · intro s now ev sc st cd hen hmem hexp hdisk
    simp [get_cached_scenario, hen, hmem, hexp, hdisk]
  · intro s now ev sid st cd hen hmem hdisk hexp
    cases hm : alistGet st.memory (situationKey ev sid) with
    | none => simp [get_cached_situation, hen, hm, hdisk, hexp]
    | some cd' =>
        have h2 := hmem cd' hm
        simp [get_cached_situation, hen, hm, h2, hdisk, hexp]
  · intro s now ev sid st cd hen hmem hexp hdisk
    simp [get_cached_situation, hen, hmem, hexp, hdisk]

/-- Witness for the amended C4, disk-tier branch: the expired disk entry
is deleted by the lookup and a miss is returned. -/
theorem c4_amended_expired_read_witness :
    get_cached_scenario ⟨true, 24, 100, 80⟩ 10 "トイレ" 0
        ⟨[], [("トイレ_0", ⟨Json.str "古い", 0, 5⟩)], []⟩ =
      (none, (⟨[],
        alistErase [("トイレ_0", ⟨Json.str "古い", 0, 5⟩)]
          (cacheKey "トイレ" 0), []⟩ : CMState)) :=
  c4_amended_expired_read.1 ⟨true, 24, 100, 80⟩ 10 "トイレ" 0
    ⟨[], [("トイレ_0", ⟨Json.str "古い", 0, 5⟩)], []⟩
    ⟨Json.str "古い", 0, 5⟩ rfl
    (fun _ h => Option.noConfusion h) rfl rfl

/-- C5 counterexample: with use_ai_generation=false and force_new=false
and a valid truthy cache entry present, get_scene_with_variation returns
the cached content, not the base template the claim requires - and it
does consult the cache. -/
theorem c5_counterexample :
    get_scene_with_variation envGatewayDown ⟨true, 24, 100, 80⟩ 10
        "トイレ" 0 false false stValidCached =
      (some (Json.str "キャッシュ済み"), stValidCached) ∧
    load_base_template envGatewayDown "トイレ" 0 = some toiletTemplate ∧
    Json.str "キャッシュ済み" ≠ toiletTemplate :=
  ⟨rfl, rfl, by decide⟩

/-- C5 amended: with use_ai_generation=false no generation happens (the
result is independent of both gateway oracles) and nothing is written to
the cache; with force_new=true the static template is returned with the
state untouched; with force_new=false the cache is consulted first - a
valid truthy hit is returned (with the lookup's own side effects on the
state), and only otherwise does the static template come back. -/
theorem c5_amended_no_ai_no_write (rj : String → Option Json)
    (g1 g2 : String → Nat → Json → String → Except String Json)
    (v1 v2 : String → Json → Json → Except String Json)
    (s : Settings) (now : Nat) (ev : String) (sc : Nat) (st : CMState) :
    (∀ fn, get_scene_with_variation ⟨rj, g1, v1⟩ s now ev sc false fn st =
      get_scene_with_variation ⟨rj, g2, v2⟩ s now ev sc false fn st) ∧
    get_scene_with_variation ⟨rj, g1, v1⟩ s now ev sc false true st =
      (load_base_template ⟨rj, g1, v1⟩ ev sc, st) ∧
    get_scene_with_variation ⟨rj, g1, v1⟩ s now ev sc false false st =
      (match get_cached_scenario s now ev sc st with
       | (some cached, st1) =>
           if cached.truthy then (some cached, st1)
           else (load_base_template ⟨rj, g1, v1⟩ ev sc, st1)
       | (none, st1) => (load_base_template ⟨rj, g1, v1⟩ ev sc, st1)) := by
  refine ⟨fun fn => rfl, ?_, ?_⟩
  · unfold get_scene_with_variation
    cases hl : load_base_template ⟨rj, g1, v1⟩ ev sc <;> simp [hl]
  · unfold get_scene_with_variation
    cases hc : get_cached_scenario s now ev sc st with
    | mk copt st1 =>
        cases copt with
        | none =>
            cases hl : load_base_template ⟨rj, g1, v1⟩ ev sc <;>
              simp [hc, hl]
        | some cached =>
            by_cases ht : cached.truthy
            · simp [hc, ht]
            · cases hl : load_base_template ⟨rj, g1, v1⟩ ev sc <;>
                simp [hc, hl, ht]

/-- C1: with a present base template and every gateway call raising, the
force-new AI-generation path returns the static base template (never None,
never an exception - the embedding is total on this path) and leaves the
cache state untouched, so the composite key stays absent. -/
theorem c1_total_gateway_failure (env : Env) (s : Settings) (now : Nat)
    (ev : String) (sc : Nat) (st : CMState) (T : Json)
    (hT : load_base_template env ev sc = some T)
    (hgen : ∀ a b c d, ∃ e, env.genScenarioGw a b c d = Except.error e)
    (_hval : ∀ a b c, ∃ e, env.valGw a b c = Except.error e)
    (hkey : alistGet st.scenarioDisk (cacheKey ev sc) = none) :
    get_scene_with_variation env s now ev sc true true st = (some T, st) ∧
    alistGet
      (get_scene_with_variation env s now ev sc true true st).2.scenarioDisk
      (cacheKey ev sc) = none := by
  have hgen' : generate_with_ai env ev sc T = none := by
    unfold generate_with_ai
    cases hinf : infer_learning_goal T with
    | error e => rfl
    | ok lg =>
        obtain ⟨e, he⟩ := hgen ev sc (T.objGetD "text" (Json.str "")) lg
        simp [generate_scenario_variation, he]
  have hmain :
      get_scene_with_variation env s now ev sc true true st = (some T, st) := by
    unfold get_scene_with_variation
    simp [hT, hgen']
  exact ⟨hmain, by rw [hmain]; exact hkey⟩

/-- Witness for C1: the toilet template with the gateway down. -/
theorem c1_total_gateway_failure_witness :
    get_scene_with_variation envGatewayDown ⟨true, 24, 100, 80⟩ 0 "トイレ" 0
        true true ⟨[], [], []⟩ = (some toiletTemplate, ⟨[], [], []⟩) ∧
    alistGet (get_scene_with_variation envGatewayDown ⟨true, 24, 100, 80⟩ 0
        "トイレ" 0 true true ⟨[], [], []⟩).2.scenarioDisk
      (cacheKey "トイレ" 0) = none :=
  c1_total_gateway_failure envGatewayDown ⟨true, 24, 100, 80⟩ 0 "トイレ" 0
    ⟨[], [], []⟩ toiletTemplate rfl
    (fun _ _ _ _ => ⟨"APIConnectionError", rfl⟩)
    (fun _ _ _ => ⟨"APIConnectionError", rfl⟩) rfl

theorem seqConsume_no_err (chunks : List RawChunk)
    (h : ∀ ch ∈ chunks, ch.choices ≠ []) : (seqConsume chunks).2 = none := by
  induction chunks with
  | nil => rfl
  | cons c rest ih =>
      have hr := ih (fun x hx => h x (by simp [hx]))
      cases hc : c.choices with
      | nil => exact absurd hc (h c (by simp))
      | cons d ds =>
          simp only [seqConsume, hc]
          cases hd : d.content with
          | none => exact hr
          | some s =>
              by_cases hs : (s != "") = true
              · simp only [if_pos hs]
                exact hr
              · simp only [if_neg hs]
                exact hr

theorem sequentialAgentBlock_clean (env : SAEnv) (q c t agentId : String)
    (a : Agent) (so : StreamOutcome)
    (h1 : env.seqStream agentId q c t = .ok so) (h2 : so.failAfter = none)
    (h3 : ∀ ch ∈ so.chunks, ch.choices ≠ []) :
    sequentialAgentBlock env q c t agentId a =
      (⟨agentId, a.name, a.icon, "__START__"⟩ ::
        ((seqConsume so.chunks).1.map
          (fun s => (⟨agentId, a.name, a.icon, s⟩ : SeqEvent)) ++
         [⟨agentId, a.name, a.icon, "__END__"⟩]),
       ["sequential_" ++ agentId], 1, none) := by
  unfold sequentialAgentBlock
  rw [h1]
  simp [seqConsume_no_err so.chunks h3, h2]

theorem seqLoop_clean (env : SAEnv) (q c t : String)
    (l : List (String × Agent)) (so : String → StreamOutcome)
    (h : ∀ p ∈ l, env.seqStream p.1 q c t = .ok (so p.1) ∧
      (so p.1).failAfter = none ∧
      ∀ ch ∈ (so p.1).chunks, ch.choices ≠ []) :
    seqLoop env q c t l =
      (l.flatMap (fun p => ⟨p.1, p.2.name, p.2.icon, "__START__"⟩ ::
         ((seqConsume (so p.1).chunks).1.map
           (fun s => (⟨p.1, p.2.name, p.2.icon, s⟩ : SeqEvent)) ++
          [⟨p.1, p.2.name, p.2.icon, "__END__"⟩])),
       l.map (fun p => "sequential_" ++ p.1), l.length, none) := by
  induction l with
  | nil => rfl
  | cons p rest ih =>
      obtain ⟨aid, a⟩ := p
      obtain ⟨h1, h2, h3⟩ := h (aid, a) (by simp)
      simp only [seqLoop]
      rw [sequentialAgentBlock_clean env q c t aid a (so aid) h1 h2 h3,
        ih (fun p hp => h p (by simp [hp]))]
      simp [List.flatMap]
      omega

/-- C7: in an exception-free run (every persona stream establishes, no
chunk lacks a first choice, no iterator fails mid-stream), the sequential
generator emits exactly one contiguous block per registry persona, in
registry order: its start marker, its text chunks in delivery order, and
its end marker - no interleaving, with persona N's end marker strictly
before anything of persona N+1. -/
theorem c7_sequential_ordering (env : SAEnv) (q c t : String)
    (so : String → StreamOutcome)
    (h : ∀ p ∈ AGENTS, env.seqStream p.1 q c t = .ok (so p.1) ∧
      (so p.1).failAfter = none ∧
      ∀ ch ∈ (so p.1).chunks, ch.choices ≠ []) :
    generate_sequential_expert_responses_stream env q c t =
      ⟨AGENTS.flatMap (fun p => ⟨p.1, p.2.name, p.2.icon, "__START__"⟩ ::
         ((seqConsume (so p.1).chunks).1.map
           (fun s => (⟨p.1, p.2.name, p.2.icon, s⟩ : SeqEvent)) ++
          [⟨p.1, p.2.name, p.2.icon, "__END__"⟩])),
       AGENTS.map (fun p => "sequential_" ++ p.1), [], AGENTS.length,
       none⟩ := by
  unfold generate_sequential_expert_responses_stream
  rw [seqLoop_clean env q c t AGENTS so h]

/-- Witness for C7: every persona stream delivers one text chunk. -/
theorem c7_sequential_ordering_witness :
    generate_sequential_expert_responses_stream saEnvOk "質問" "背景"
        "friendly" =
      ⟨AGENTS.flatMap (fun p => ⟨p.1, p.2.name, p.2.icon, "__START__"⟩ ::
         ((seqConsume okOutcome.chunks).1.map
           (fun s => (⟨p.1, p.2.name, p.2.icon, s⟩ : SeqEvent)) ++
          [⟨p.1, p.2.name, p.2.icon, "__END__"⟩])),
       AGENTS.map (fun p => "sequential_" ++ p.1), [], AGENTS.length,
       none⟩ :=
  c7_sequential_ordering saEnvOk "質問" "背景" "friendly"
    (fun _ => okOutcome)
    (fun _ _ => ⟨rfl, rfl, by
      show ∀ ch ∈ okOutcome.chunks, ch.choices ≠ []
      decide⟩)

/-- C8: for each of the four streaming operations, every exception raised
while establishing or consuming the gateway stream is caught inside the
generator: nothing ever escapes the generator boundary, and the failing
run's event list is exactly the normally delivered chunks followed by one
diagnostic chunk (the fixed error event, for the sequential operation). -/
theorem c8_stream_failure_containment :
    (∀ (env : SAEnv) (agentId q c t : String),
      (generate_single_expert_response_stream env agentId q c t).escaped
        = none) ∧
    (∀ (env : SAEnv) (q c t : String),
      (generate_quick_response_stream env q c t).escaped = none) ∧
    (∀ (env : SAEnv) (q c t : String),
      (generate_comprehensive_response_stream env q c t).escaped = none) ∧
    (∀ (env : SAEnv) (q c t : String),
      (generate_sequential_expert_responses_stream env q c t).escaped
        = none) ∧
    (∀ (env : SAEnv) (agentId q c t : String) (a : Agent) (e : String),
      alistGet AGENTS agentId = some a →
      env.singleStream agentId q c t = .error e →
      (generate_single_expert_response_stream env agentId q c t).events
        = [diagMsg e]) ∧
    (∀ (env : SAEnv) (agentId q c t : String) (a : Agent)
        (so : StreamOutcome) (e : String),
      alistGet AGENTS agentId = some a →
      env.singleStream agentId q c t = .ok so → so.failAfter = some e →
      (generate_single_expert_response_stream env agentId q c t).events
        = so.chunks.filterMap contentOfChunk ++ [diagMsg e]) ∧
    (∀ (env : SAEnv) (q c t e : String),
      env.quickStream q c t = .error e →
      (generate_quick_response_stream env q c t).events = [diagMsg e]) ∧
    (∀ (env : SAEnv) (q c t : String) (so : StreamOutcome) (e : String),
      env.quickStream q c t = .ok so → so.failAfter = some e →
      (generate_quick_response_stream env q c t).events
        = so.chunks.filterMap contentOfChunk ++ [diagMsg e]) ∧
    (∀ (env : SAEnv) (q c t e : String),
      env.synthStream q c t (comprehensiveCollect env q c).1 = .error e →
      (generate_comprehensive_response_stream env q c t).events
        = [diagMsg e]) ∧
    (∀ (env : SAEnv) (q c t : String) (so : StreamOutcome) (e : String),
      env.synthStream q c t (comprehensiveCollect env q c).1 = .ok so →
      so.failAfter = some e →
      (generate_comprehensive_response_stream env q c t).events
        = so.chunks.filterMap contentOfChunk ++ [diagMsg e]) ∧
    (∀ (env : SAEnv) (q c t : String) (evs : List SeqEvent)
        (api : List String) (n : Nat) (e : String),
      seqLoop env q c t AGENTS = (evs, api, n, some e) →
      (generate_sequential_expert_responses_stream env q c t).events
        = evs ++ [seqErrorEvent]) := by
  refine ⟨?_, ?_, ?_, ?_, ?_, ?_, ?_, ?_, ?_, ?_, ?_⟩
  · intro env agentId q c t
    cases hA : alistGet AGENTS agentId with
    | none => simp [generate_single_expert_response_stream, hA]
    | some a =>
        cases hS : env.singleStream agentId q c t with
        | error e => simp [generate_single_expert_response_stream, hA, hS]
        | ok so =>
            cases hF : so.failAfter <;>
              simp [generate_single_expert_response_stream, hA, hS, hF]
  · intro env q c t
    cases hS : env.quickStream q c t with
    | error e => simp [generate_quick_response_stream, hS]
    | ok so =>
        cases hF : so.failAfter <;>
          simp [generate_quick_response_stream, hS, hF]
  · intro env q c t
    cases hS : env.synthStream q c t (comprehensiveCollect env q c).1 with
    | error e => simp [generate_comprehensive_response_stream, hS]
    | ok so =>
        cases hF : so.failAfter <;>
          simp [generate_comprehensive_response_stream, hS, hF]
  · intro env q c t
    cases hL : (seqLoop env q c t AGENTS).2.2.2 <;>
      simp [generate_sequential_expert_responses_stream, hL]
  · intro env agentId q c t a e hA hS
    simp [generate_single_expert_response_stream, hA, hS]
  · intro env agentId q c t a so e hA hS hF
    simp [generate_single_expert_response_stream, hA, hS, hF]
  · intro env q c t e hS
    simp [generate_quick_response_stream, hS]
  · intro env q c t so e hS hF
    simp [generate_quick_response_stream, hS, hF]
  · intro env q c t e hS
    simp [generate_comprehensive_response_stream, hS]
  · intro env q c t so e hS hF
    simp [generate_comprehensive_response_stream, hS, hF]
  · intro env q c t evs api n e hL
    simp [generate_sequential_expert_responses_stream, hL]

/-- Witness for C8: with every stream oracle failing to establish, the
single-expert and quick runs consist of exactly the diagnostic chunk,
the sequential run of the first start marker plus the fixed error event,
and nothing escapes. -/
theorem c8_stream_failure_containment_witness :
    (generate_single_expert_response_stream saEnvDown
        "clinical_psychologist" "質問" "背景" "friendly").events
      = [diagMsg "boom"] ∧
    (generate_quick_response_stream saEnvDown "質問" "背景"
        "friendly").events = [diagMsg "boom"] ∧
    (generate_sequential_expert_responses_stream saEnvDown "質問" "背景"
        "friendly").escaped = none :=
  ⟨c8_stream_failure_containment.2.2.2.2.1 saEnvDown
      "clinical_psychologist" "質問" "背景" "friendly"
      ⟨"臨床心理士", "🧠", "ASD専門の臨床心理士（経験20年）",
       ["応用行動分析(ABA)", "TEACCH", "SST", "感覚統合療法"]⟩ "boom"
      rfl rfl,
   c8_stream_failure_containment.2.2.2.2.2.2.1 saEnvDown "質問" "背景"
     "friendly" "boom" rfl,
   c8_stream_failure_containment.2.2.2.1 saEnvDown "質問" "背景"
     "friendly"⟩

end AsdSupport
